import Mathlib

/-!
Shallow embedding of the OpenSystem VTL immutability scripts
(`open_system_vtl_immutable.py`, `open_system_vtl_reset.py`, `utils.py`).

Python strings are Lean `String`s; Python string operations
(`split`, `strip`, `in`, `upper`, ...) are re-implemented below with the
exact Python semantics used by the scripts.  Python `datetime` values are
modelled as civil date-time records with an integer POSIX-style timestamp
(fixed UTC-like offset; the scripts only ever compare timestamps taken in
the same local timezone, so a fixed offset is faithful).  Python floats
arising from decimal literals in reports are modelled exactly as scaled
integers (mantissa / 10^scale).  A Python function that can raise an
exception is modelled with `Option` (`none` = exception); a function that
can return `None` as a value is likewise modelled with `Option` at its
result, with the caller's truthiness test translated accordingly.
-/

namespace VTL

/-! ### Python string primitives -/

/-- `str.split(sep)` for a single-character separator: keeps empty fields. -/
def splitCharL (sep : Char) : List Char → List (List Char)
  | [] => [[]]
  | c :: rest =>
    if c = sep then [] :: splitCharL sep rest
    else
      match splitCharL sep rest with
      | f :: fs => (c :: f) :: fs
      | [] => [[c]]

def pySplitChar (s : String) (sep : Char) : List String :=
  (splitCharL sep s.toList).map String.mk

/-- `str.split('  ')` (two-space separator), greedy left-to-right,
keeping empty fields — Python semantics. -/
def splitTwoSpaceL : List Char → List (List Char)
  | [] => [[]]
  | ' ' :: ' ' :: rest => [] :: splitTwoSpaceL rest
  | c :: rest =>
    match splitTwoSpaceL rest with
    | f :: fs => (c :: f) :: fs
    | [] => [[c]]

def pySplitTwoSpace (s : String) : List String :=
  (splitTwoSpaceL s.toList).map String.mk

def pyIsSpace (c : Char) : Bool :=
  c = ' ' || c = '\t' || c = '\n' || c = '\r' || c = '\x0b' || c = '\x0c'

/-- `str.split()` with no argument: split on whitespace runs, dropping
empty fields. -/
def splitWsL (s : List Char) : List (List Char) :=
  (splitCharL ' ' (s.map (fun c => if pyIsSpace c then ' ' else c))).filter (· ≠ [])

def pySplitWs (s : String) : List String :=
  (splitWsL s.toList).map String.mk

/-- `str.strip()`. -/
def pyStrip (s : String) : String :=
  String.mk (((s.toList.dropWhile pyIsSpace).reverse.dropWhile pyIsSpace).reverse)

/-- `a.startswith`-style prefix test on char lists. -/
def leadsWith : List Char → List Char → Bool
  | [], _ => true
  | _ :: _, [] => false
  | a :: as, b :: bs => a = b && leadsWith as bs

def hasSub (pat : List Char) : List Char → Bool
  | [] => leadsWith pat []
  | c :: rest => leadsWith pat (c :: rest) || hasSub pat rest

/-- Python `pat in hay` substring test. -/
def strContains (hay pat : String) : Bool :=
  hasSub pat.toList hay.toList

/-- `s.count('-', 0, 2)`: occurrences of `'-'` among the first two characters. -/
def countDashFirstTwo (s : String) : Nat :=
  (s.toList.take 2).count '-'

/-- The maximal run of digits at the end of `s`
(`re.search(r'(\d+)$', s)`; empty result = no match). -/
def trailingDigits (s : String) : String :=
  String.mk ((s.toList.reverse.takeWhile Char.isDigit).reverse)

def charUpper (c : Char) : Char :=
  if 'a' ≤ c ∧ c ≤ 'z' then Char.ofNat (c.toNat - 32) else c

/-- `str.upper()` (ASCII, as used on unit tokens). -/
def pyUpper (s : String) : String :=
  String.mk (s.toList.map charUpper)

def digitsToNat : List Char → Nat → Nat
  | [], acc => acc
  | c :: rest, acc => digitsToNat rest (acc * 10 + (c.toNat - 48))

/-- Parse a non-empty all-digit string. -/
def parseNat? (s : String) : Option Nat :=
  if s ≠ "" ∧ s.toList.all Char.isDigit then some (digitsToNat s.toList 0) else none

/-! ### Exact decimal numbers (model of Python numeric literals)

A value is `mant / 10 ^ scale`.  The scripts only multiply such numbers by
integer unit factors and compare them, so this exact representation is
adequate and kernel-computable. -/

structure PyNum where
  mant : Int
  scale : Nat
deriving DecidableEq, Repr

/-- Exact value comparison `a > b`. -/
def PyNum.gtNum (a b : PyNum) : Bool :=
  decide (b.mant * (10 : Int) ^ a.scale < a.mant * (10 : Int) ^ b.scale)

/-- Multiply by an integer factor. -/
def PyNum.scaleBy (a : PyNum) (k : Int) : PyNum :=
  ⟨a.mant * k, a.scale⟩

/-- `float(tok) > 0`. -/
def PyNum.isPos (a : PyNum) : Bool :=
  decide (0 < a.mant)

/-- Python `float(tok)` on the decimal strings appearing in reports:
optional sign, digits, optional single point — exact value. -/
def parseDecimal? (s : String) : Option PyNum :=
  let t := pyStrip s
  let (sgn, body) :=
    if t.toList.headD ' ' = '-' then ((-1 : Int), String.mk (t.toList.drop 1))
    else if t.toList.headD ' ' = '+' then ((1 : Int), String.mk (t.toList.drop 1))
    else ((1 : Int), t)
  match pySplitChar body '.' with
  | [i] =>
    if i ≠ "" ∧ i.toList.all Char.isDigit then
      some ⟨sgn * (digitsToNat i.toList 0 : Int), 0⟩
    else none
  | [i, f] =>
    if (i ≠ "" ∨ f ≠ "") ∧ i.toList.all Char.isDigit ∧ f.toList.all Char.isDigit then
      some ⟨sgn * ((digitsToNat i.toList 0 : Int) * (10 : Int) ^ f.length
        + (digitsToNat f.toList 0 : Int)), f.length⟩
    else none
  | _ => none

/-- Python `int(tok)`: optional sign and digits only. -/
def parseInt? (s : String) : Option Int :=
  let t := pyStrip s
  if t.toList.headD ' ' = '-' then
    (parseNat? (String.mk (t.toList.drop 1))).map (fun n => -(n : Int))
  else if t.toList.headD ' ' = '+' then
    (parseNat? (String.mk (t.toList.drop 1))).map (fun n => (n : Int))
  else (parseNat? t).map (fun n => (n : Int))

end VTL

namespace VTL

/-! ### Python `datetime` model

Civil date-times with an integer second-precision timestamp.  The days
computation is the standard civil-from-days / days-from-civil algorithm
with floor division, matching Python's proleptic Gregorian calendar and
`datetime.timestamp()` at a fixed UTC-like offset. -/

structure PyDateTime where
  year : Int
  month : Int
  day : Int
  hour : Int
  minute : Int
  second : Int
deriving DecidableEq, Repr

def daysFromCivil (y m d : Int) : Int :=
  let y2 := if m ≤ 2 then y - 1 else y
  let era := Int.fdiv y2 400
  let yoe := y2 - era * 400
  let mp := Int.fmod (m + 9) 12
  let doy := Int.fdiv (153 * mp + 2) 5 + d - 1
  let doe := yoe * 365 + Int.fdiv yoe 4 - Int.fdiv yoe 100 + doy
  era * 146097 + doe - 719468

def civilFromDays (z0 : Int) : Int × Int × Int :=
  let z := z0 + 719468
  let era := Int.fdiv z 146097
  let doe := z - era * 146097
  let yoe := Int.fdiv (doe - Int.fdiv doe 1460 + Int.fdiv doe 36524 - Int.fdiv doe 146096) 365
  let y := yoe + era * 400
  let doy := doe - (365 * yoe + Int.fdiv yoe 4 - Int.fdiv yoe 100)
  let mp := Int.fdiv (5 * doy + 2) 153
  let d := doy - Int.fdiv (153 * mp + 2) 5 + 1
  let m := mp + (if mp < 10 then 3 else -9)
  (if m ≤ 2 then y + 1 else y, m, d)

/-- `int(dt.timestamp())` (fixed offset). -/
def timestamp (dt : PyDateTime) : Int :=
  daysFromCivil dt.year dt.month dt.day * 86400
    + dt.hour * 3600 + dt.minute * 60 + dt.second

/-- `dt.replace(hour=0, minute=0, second=0, microsecond=0)`. -/
def midnight (dt : PyDateTime) : PyDateTime :=
  { dt with hour := 0, minute := 0, second := 0 }

/-- The date-time at a given timestamp (used for `now - timedelta(1)`). -/
def fromTimestamp (ts : Int) : PyDateTime :=
  let days := Int.fdiv ts 86400
  let rem := ts - days * 86400
  let c := civilFromDays days
  { year := c.1, month := c.2.1, day := c.2.2,
    hour := Int.fdiv rem 3600, minute := Int.fdiv (Int.fmod rem 3600) 60,
    second := Int.fmod rem 60 }

def isLeapYear (y : Int) : Bool :=
  (Int.fmod y 4 = 0 ∧ Int.fmod y 100 ≠ 0) ∨ Int.fmod y 400 = 0

def daysInMonth (y m : Int) : Int :=
  if m = 2 then (if isLeapYear y then 29 else 28)
  else if m = 4 ∨ m = 6 ∨ m = 9 ∨ m = 11 then 30
  else 31

def validDateTime (y m d h mi s : Nat) : Bool :=
  1 ≤ m ∧ m ≤ 12 ∧ 1 ≤ d ∧ (d : Int) ≤ daysInMonth y m ∧ h ≤ 23 ∧ mi ≤ 59 ∧ s ≤ 59

/-- `datetime.strptime(s, '%Y/%m/%d %H:%M:%S')`; `none` models the raised
`ValueError` on a malformed string. -/
def parseDateTime (s : String) : Option PyDateTime :=
  match pySplitWs s with
  | [datePart, timePart] =>
    match pySplitChar datePart '/', pySplitChar timePart ':' with
    | [ys, ms, ds], [hs, mis, ss] =>
      match parseNat? ys, parseNat? ms, parseNat? ds,
            parseNat? hs, parseNat? mis, parseNat? ss with
      | some y, some m, some d, some h, some mi, some sec =>
        if validDateTime y m d h mi sec then
          some ⟨y, m, d, h, mi, sec⟩
        else none
      | _, _, _, _, _, _ => none
    | _, _ => none
  | _ => none

def monthAbbr? (s : String) : Option Nat :=
  match s with
  | "Jan" => some 1 | "Feb" => some 2 | "Mar" => some 3 | "Apr" => some 4
  | "May" => some 5 | "Jun" => some 6 | "Jul" => some 7 | "Aug" => some 8
  | "Sep" => some 9 | "Oct" => some 10 | "Nov" => some 11 | "Dec" => some 12
  | _ => none

/-- `datetime.strptime(s, '%a %b %d %H:%M:%S %Y')` (placement times). -/
def parseCtime (s : String) : Option PyDateTime :=
  match pySplitWs s with
  | [wd, mon, ds, timePart, ys] =>
    if wd ∈ ["Mon", "Tue", "Wed", "Thu", "Fri", "Sat", "Sun"] then
      match monthAbbr? mon, parseNat? ds, parseNat? ys, pySplitChar timePart ':' with
      | some m, some d, some y, [hs, mis, ss] =>
        match parseNat? hs, parseNat? mis, parseNat? ss with
        | some h, some mi, some sec =>
          if validDateTime y m d h mi sec then
            some ⟨y, m, d, h, mi, sec⟩
          else none
        | _, _, _ => none
      | _, _, _, _ => none
    else none
  | _ => none

/-! ### `utils.py` -/

/-- The unit branch of `size_to_bytes` (the `if/elif` chain on the
upper-cased unit token); `none` models the raised `ValueError`. -/
def unitMultiplier (u : String) : Option Int :=
  let uu := pyUpper u
  if uu = "B" then some 1
  else if uu = "KB" then some 1024
  else if uu = "MB" ∨ uu = "MIB" then some (1024 * 1024)
  else if uu = "GB" ∨ uu = "GIB" then some (1024 * 1024 * 1024)
  else if uu = "TB" ∨ uu = "TIB" then some (1024 * 1024 * 1024 * 1024)
  else none

/-- `utils.size_to_bytes`; `none` models any raised exception
(unpacking error, float error, or unsupported unit). -/
def size_to_bytes (size_str : String) : Option PyNum :=
  match pySplitWs (pyStrip size_str) with
  | [v, u] =>
    match parseDecimal? v with
    | some q => (unitMultiplier u).map q.scaleBy
    | none => none
  | _ => none

/-- Outcome of launching an external process (`subprocess`): it either ran
to completion (with captured output, error text and exit status), raised
`subprocess.CalledProcessError`, or raised some other exception. -/
inductive ProcOutcome where
  | completed (stdout stderr : String) (exitCode : Int)
  | calledProcessError
  | otherError
deriving DecidableEq, Repr

/-- `utils.run_nsrmm_command`: the `Popen`/`communicate` path returns
`True` whenever the process runs to completion (stderr is only logged);
`CalledProcessError` is caught and yields `False`; any other exception
propagates (`none`). -/
def run_nsrmm_command (p : ProcOutcome) : Option Bool :=
  match p with
  | .completed _ _ _ => some true
  | .calledProcessError => some false
  | .otherError => none

/-- `utils.run_nsrjb_command`: `subprocess.run(..., check=True)` — a
non-zero exit raises `CalledProcessError`, caught and returned as `False`;
a zero exit returns `True`; other exceptions propagate (`none`). -/
def run_nsrjb_command (p : ProcOutcome) : Option Bool :=
  match p with
  | .completed _ _ code => some (code = 0)
  | .calledProcessError => some false
  | .otherError => none

end VTL

namespace VTL

/-! ### `open_system_vtl_reset.py` -/

namespace Reset

/-- The dictionary built in `OpenSystemVTLReset.get_tapes_by_pool`. -/
structure TapeInfo where
  barcode : String
  pool_name : String
  location : String
  state : String
  size : String
  retention_time : String
deriving DecidableEq, Repr

/-- `OpenSystemVTLReset.check_state`: `True` iff `"RL"` occurs in the
stripped state (the tape is retention-locked). -/
def check_state (t : TapeInfo) : Bool :=
  strContains (pyStrip t.state) "RL"

/-- `OpenSystemVTLReset.check_retention_date`: `False` on the `"n/a"`
sentinel; otherwise parse the retention time and compare with now
(`none` = `strptime` raised). -/
def check_retention_date (now : PyDateTime) (t : TapeInfo) : Option Bool :=
  if t.retention_time ≠ "n/a" then
    match parseDateTime t.retention_time with
    | none => none
    | some md => some (decide (timestamp md < timestamp now))
  else some false

/-- Non-empty stripped fields of a report line
(the inner `for tape_data in line` accumulation). -/
def lineFields (line : String) : List String :=
  ((pySplitTwoSpace line).map pyStrip).filter (· ≠ "")

/-- The loop body of `get_tapes_by_pool` over the remaining lines.
`i` is the number of lines already consumed.  The surrounding
`try/except` catches any exception and keeps the records accumulated so
far, so every exceptional path returns the accumulator. -/
def getTapesLoop (now : PyDateTime) : Nat → List String → List TapeInfo → List TapeInfo
  | _, [], acc => acc
  | i, line :: rest, acc =>
    let parts := pySplitTwoSpace line
    let i1 := i + 1
    let hyphen := countDashFirstTwo (parts.headD "")
    if i1 > 3 ∧ hyphen > 1 then acc
    else if i1 ≤ 3 then getTapesLoop now i1 rest acc
    else
      let tapes := lineFields line
      if tapes.length < 8 then acc
      else
        let t : TapeInfo :=
          { barcode := tapes.getD 0 "", pool_name := tapes.getD 1 "",
            location := tapes.getD 2 "", state := tapes.getD 3 "",
            size := tapes.getD 4 "", retention_time := tapes.getD 7 "" }
        let acc1 := if t.barcode = "TEST01L5" then acc ++ [t] else acc
        match check_retention_date now t with
        | none => acc1
        | some expired =>
          let acc2 := if check_state t ∧ expired then acc1 ++ [t] else acc1
          getTapesLoop now i1 rest acc2

/-- `OpenSystemVTLReset.get_tapes_by_pool`: the appliance answer is either
a failure (`none`, the channel returned `False`) or output text; empty or
failed output yields the empty list. -/
def get_tapes_by_pool (now : PyDateTime) (pool_data : Option String) : List TapeInfo :=
  match pool_data with
  | none => []
  | some s => if s = "" then [] else getTapesLoop now 0 (pySplitChar s '\n') []

/-- Per-tape results of the remote commands issued by the reclaim
pipeline, plus the two catalog subprocesses.  A `Bool` is the
truthiness of the ssh channel result (`False` vs. output text). -/
structure Env where
  deleteProc : String → ProcOutcome
  exportCmd : TapeInfo → Bool
  removeCmd : TapeInfo → Bool
  createCmd : TapeInfo → Bool
  importCmd : TapeInfo → Bool
  labelProc : String → ProcOutcome

/-- `OpenSystemVTLReset.export_tape_from_library`: returns the command's
success for a non-vault location ending in a slot number, and falls off
the end (Python `None`, modelled `none`) otherwise. -/
def export_tape_from_library (env : Env) (t : TapeInfo) : Option Bool :=
  if trailingDigits t.location ≠ "" ∧ (pySplitChar t.location ' ').headD "" ≠ "vault" then
    some (env.exportCmd t)
  else none

/-- `OpenSystemVTLReset.import_tape_from_library`: unconditionally `False`
for a vault location, otherwise the command's success. -/
def import_tape_from_library (env : Env) (t : TapeInfo) : Bool :=
  if (pySplitChar t.location ' ').headD "" ≠ "vault" then env.importCmd t else false

/-- `OpenSystemVTLReset.execute_tape_remove_commmand` (tape delete on the
pool); the helper returns the command's success. -/
def execute_tape_remove_commmand (env : Env) (t : TapeInfo) : Bool :=
  env.removeCmd t

/-- `OpenSystemVTLReset.create_tape`: unpacks `size` as
`value unit` and converts the value with `int(...)`; a malformed size
string raises (`none`), which propagates to the caller. -/
def create_tape (env : Env) (t : TapeInfo) : Option Bool :=
  match pySplitWs (pyStrip t.size) with
  | [v, _u] =>
    match parseInt? v with
    | some _ => some (env.createCmd t)
    | none => none
  | _ => none

/-- Where a tape ends up after one pass of the reclaim pipeline. -/
inductive TapeOutcome where
  | succeeded
  | failDelete
  | failExport
  | failRemove
  | failCreate
  | failImport
deriving DecidableEq, Repr

/-- One iteration of the `remove_retention_locked_tapes` loop for a single
tape; `none` models an uncaught exception (which aborts the whole batch). -/
def process_rl_tape (env : Env) (t : TapeInfo) : Option TapeOutcome :=
  match run_nsrmm_command (env.deleteProc t.barcode) with
  | none => none
  | some deleteResult =>
    if deleteResult then
      match export_tape_from_library env t with
      | some true =>
        if execute_tape_remove_commmand env t then
          match create_tape env t with
          | none => none
          | some true =>
            if import_tape_from_library env t then
              match run_nsrjb_command (env.labelProc t.barcode) with
              | none => none
              | some _labeling => some .succeeded
            else some .failImport
          | some false => some .failCreate
        else some .failRemove
      | _ => some .failExport
    else some .failDelete

/-- The per-stage failure buckets and the success list accumulated by
`remove_retention_locked_tapes`. -/
structure BatchResult where
  created_tapes : List String
  failed_tape_while_export : List TapeInfo
  failed_tape_while_remove : List TapeInfo
  failed_tape_while_create : List TapeInfo
  failed_tape_while_import : List TapeInfo
  failed_tape_while_delete_on_networker : List TapeInfo
deriving DecidableEq, Repr

def emptyBatch : BatchResult := ⟨[], [], [], [], [], []⟩

/-- Record one tape's pipeline outcome into the accumulated buckets. -/
def recordOutcome (r : BatchResult) (t : TapeInfo) : TapeOutcome → BatchResult
  | .succeeded => { r with created_tapes := r.created_tapes ++ [t.barcode] }
  | .failDelete => { r with failed_tape_while_delete_on_networker :=
      r.failed_tape_while_delete_on_networker ++ [t] }
  | .failExport => { r with failed_tape_while_export := r.failed_tape_while_export ++ [t] }
  | .failRemove => { r with failed_tape_while_remove := r.failed_tape_while_remove ++ [t] }
  | .failCreate => { r with failed_tape_while_create := r.failed_tape_while_create ++ [t] }
  | .failImport => { r with failed_tape_while_import := r.failed_tape_while_import ++ [t] }

/-- The `for rl_tape in self.retention_locked_tape_list` loop; an uncaught
exception while processing a tape aborts the batch (`none`): no further
tape is processed and no result is committed. -/
def batchLoop (env : Env) : List TapeInfo → BatchResult → Option BatchResult
  | [], r => some r
  | t :: rest, r =>
    match process_rl_tape env t with
    | none => none
    | some o => batchLoop env rest (recordOutcome r t o)

/-- `OpenSystemVTLReset.remove_retention_locked_tapes`. -/
def remove_retention_locked_tapes (env : Env) (tapes : List TapeInfo) : Option BatchResult :=
  batchLoop env tapes emptyBatch

end Reset

/-! ### `open_system_vtl_immutable.py` -/

namespace Immutable

/-- The dictionary built in `OpenSystem.get_tapes`. -/
structure TapeInfo where
  barcode : String
  pool_name : String
  location : String
  state : String
  size : String
  used : String
  modification_time : String
deriving DecidableEq, Repr

/-- One record of the filesys placement report
(`OpenSystem.generate_filesys_report`). -/
structure ReportRecord where
  file_name : String
  size : String
  placement_time : String
deriving DecidableEq, Repr

/-- `OpenSystem.check_state`: `True` iff the lock marker `"RL"` is absent
from the stripped state. -/
def check_state (t : TapeInfo) : Bool :=
  !(strContains (pyStrip t.state) "RL")

/-- The `for tape in self.report: ... break` search: the first placement
record whose file name contains the tape's barcode. -/
def firstMatch (report : List ReportRecord) (barcode : String) : Option ReportRecord :=
  report.find? (fun r => strContains r.file_name barcode)

/-- `OpenSystem.check_usage_in_report`.  The whole body is wrapped in
`try/except` which logs and falls off the end, so an exception yields
Python `None` (modelled `none`); otherwise `True`/`False`.  Note that when
the size threshold is passed, both branches of the placement-time
comparison return `True`, so the date math only matters through its
ability to raise. -/
def check_usage_in_report (report : List ReportRecord) (minimum_tape_usage : String)
    (t : TapeInfo) : Option Bool :=
  match firstMatch report t.barcode with
  | none => some false
  | some r =>
    match size_to_bytes minimum_tape_usage with
    | none => none
    | some ref =>
      match size_to_bytes r.size with
      | none => none
      | some fs =>
        if fs.gtNum ref then
          match parseDateTime t.modification_time, parseCtime r.placement_time with
          | some _, some _ => some true
          | _, _ => none
        else some false

/-- `OpenSystem.check_used`: reported usage percentage `> 0`, or the
report corroboration returned `True`.  `float(used[0])` can raise
(`none`), and that exception is not caught here. -/
def check_used (report : List ReportRecord) (minimum_tape_usage : String)
    (t : TapeInfo) : Option Bool :=
  match pySplitWs t.used with
  | [] => none
  | tok :: _ =>
    match parseDecimal? tok with
    | none => none
    | some u =>
      let inReport := check_usage_in_report report minimum_tape_usage t
      some (u.isPos || inReport == some true)

/-- `OpenSystem.check_modification_date`: compare the modification date
truncated to midnight against today's (mechanism 1) or yesterday's
(mechanism 2) midnight; any other mechanism yields `False`.  `yesterday`
is `now - timedelta(1)` passed through a second-precision
`strftime`/`strptime` round trip, i.e. the instant one day earlier. -/
def check_modification_date (now : PyDateTime) (mechanism : Int)
    (t : TapeInfo) : Option Bool :=
  match parseDateTime t.modification_time with
  | none => none
  | some md =>
    let modified_date_timestamp := timestamp (midnight md)
    let current_date_epoch_timestamp := timestamp (midnight now)
    let yesterday := fromTimestamp (timestamp now - 86400)
    let yesterday_epoch_timestamp := timestamp (midnight yesterday)
    some (if current_date_epoch_timestamp = modified_date_timestamp ∧ mechanism = 1 then
            true
          else if yesterday_epoch_timestamp = modified_date_timestamp ∧ mechanism = 2 then
            true
          else false)

/-- The per-record selection decision of `get_tapes` (the calls to
`check_used`, `check_state`, `check_modification_date` and the final
four-way conjunction); `none` models an exception raised by one of the
checks, which aborts the surrounding parse loop. -/
def tapeDecision (report : List ReportRecord) (minimum_tape_usage : String)
    (mechanism : Int) (now : PyDateTime) (t : TapeInfo) : Option Bool :=
  match check_used report minimum_tape_usage t with
  | none => none
  | some used =>
    let state := check_state t
    match check_modification_date now mechanism t with
    | none => none
    | some last_modified =>
      some (strContains t.location "slot" && used && state && last_modified)

/-- The `heading` literal of `get_tapes` (note the adjacent-string
concatenation in the source that fuses
`'Average Compression:'` and `'--------'`). -/
def headingList : List String :=
  ["Processing tapes....", "Barcode", "Pool", "Location", "State", "Size",
   "Used (%)", "Comp", "Modification Time", "Total size of tapes:",
   "Total pools:", "Total number of tapes:", "Average Compression:--------",
   " --------------------", " -----------------------", " -----", " --------",
   " ----------------", " ----", " -------------------"]

/-- The loop body of `get_tapes`: blank lines, heading lines and lines
with fewer than two raw columns or other than eight non-empty fields are
skipped; an exception from the checks ends the loop keeping the records
accumulated so far. -/
def getTapesLoop (report : List ReportRecord) (minimum_tape_usage : String)
    (mechanism : Int) (now : PyDateTime) :
    List String → List TapeInfo → List TapeInfo
  | [], acc => acc
  | line :: rest, acc =>
    let parts := pySplitTwoSpace line
    if pyStrip (parts.headD "") = "" then
      getTapesLoop report minimum_tape_usage mechanism now rest acc
    else if parts.any (headingList.contains ·) then
      getTapesLoop report minimum_tape_usage mechanism now rest acc
    else if parts.length < 2 then
      getTapesLoop report minimum_tape_usage mechanism now rest acc
    else
      let tapes := ((parts.map pyStrip).filter (· ≠ ""))
      if tapes.length = 8 then
        let t : TapeInfo :=
          { barcode := tapes.getD 0 "", pool_name := tapes.getD 1 "",
            location := tapes.getD 2 "", state := tapes.getD 3 "",
            size := tapes.getD 4 "", used := tapes.getD 5 "",
            modification_time := tapes.getD 7 "" }
        match tapeDecision report minimum_tape_usage mechanism now t with
        | none => acc
        | some sel =>
          getTapesLoop report minimum_tape_usage mechanism now rest
            (if sel then acc ++ [t] else acc)
      else
        getTapesLoop report minimum_tape_usage mechanism now rest acc

/-- `OpenSystem.get_tapes`: failed or empty retrieval yields the empty
list; otherwise the line loop above. -/
def get_tapes (report : List ReportRecord) (minimum_tape_usage : String)
    (mechanism : Int) (now : PyDateTime) (pool_data : Option String) : List TapeInfo :=
  match pool_data with
  | none => []
  | some s =>
    if s = "" then []
    else getTapesLoop report minimum_tape_usage mechanism now (pySplitChar s '\n') []

/-- The duration-string computation of
`OpenSystem.set_max_retention_lock_period_pool`: the daily bound (days)
proposes `"<N>day"`, then the monthly bound (years) overwrites it with
`"<N>year"`; `none` when neither is a positive integer. -/
def set_max_retention_lock_period_pool (maximum_daily_days : Option Int)
    (maximum_monthly_years : Option Int) : Option String :=
  let retention_lock : Option String := none
  let retention_lock := match maximum_daily_days with
    | some d => if d > 0 then some (toString d ++ "day") else retention_lock
    | none => retention_lock
  let retention_lock := match maximum_monthly_years with
    | some m => if m > 0 then some (toString m ++ "year") else retention_lock
    | none => retention_lock
  retention_lock

/-- The duration-string computation at the top of
`OpenSystem.set_retention_lock`: identical override rule, from
`retention_lock_period_for_tapes_in_days` and
`retention_lock_period_for_tapes_for_monthly_in_years`. -/
def retention_lock_period_for_tape (days_config : Option Int)
    (monthly_years_config : Option Int) : Option String :=
  let retention_lock_period : Option String := none
  let retention_lock_period := match days_config with
    | some d => if d > 0 then some (toString d ++ "day") else retention_lock_period
    | none => retention_lock_period
  let retention_lock_period := match monthly_years_config with
    | some m => if m > 0 then some (toString m ++ "year") else retention_lock_period
    | none => retention_lock_period
  retention_lock_period

/-- The dictionary built in `OpenSystem.format_tape_data`. -/
structure FmtTape where
  barcode : String
  pool_name : String
  state : String
  size : String
  used : String
  modification_time : String
deriving DecidableEq, Repr

/-- Loop body of `format_tape_data` (same skip-3/stop-at-separator scheme
as the reset parser, unconditional append; exceptions are caught keeping
the accumulated records). -/
def fmtLoop : Nat → List String → List FmtTape → List FmtTape
  | _, [], acc => acc
  | i, line :: rest, acc =>
    let parts := pySplitTwoSpace line
    let i1 := i + 1
    let hyphen := countDashFirstTwo (parts.headD "")
    if i1 > 3 ∧ hyphen > 1 then acc
    else if i1 ≤ 3 then fmtLoop i1 rest acc
    else
      let tapes := ((parts.map pyStrip).filter (· ≠ ""))
      if tapes.length < 8 then acc
      else
        fmtLoop i1 rest (acc ++
          [{ barcode := tapes.getD 0 "", pool_name := tapes.getD 1 "",
             state := tapes.getD 3 "", size := tapes.getD 4 "",
             used := tapes.getD 5 "", modification_time := tapes.getD 7 "" }])

/-- `OpenSystem.format_tape_data`: a failed channel result (`False`)
raises `AttributeError` at `.split`, caught by the internal handler,
yielding the empty list. -/
def format_tape_data (pool_data : Option String) : List FmtTape :=
  match pool_data with
  | none => []
  | some s => fmtLoop 0 (pySplitChar s '\n') []

/-- Result of the post-lock re-query for each barcode (`none` = the ssh
channel returned `False`). -/
structure LockEnv where
  showCmd : String → Option String

/-- `OpenSystem.set_retention_lock`: with no configured period it returns
`False`; otherwise it issues the modify command (result unused), re-queries
the tape and tests the state of the first formatted record — indexing
`updated_info[0]` raises `IndexError` (`none`) when the re-query produced
no parsable record. -/
def set_retention_lock (env : LockEnv) (days_config monthly_years_config : Option Int)
    (t : TapeInfo) : Option Bool :=
  match retention_lock_period_for_tape days_config monthly_years_config with
  | none => some false
  | some _period =>
    let updated_info := format_tape_data (env.showCmd t.barcode)
    match updated_info.head? with
    | none => none
    | some r => some (r.state = "RO/RL*")

/-- The `for tape in self.tape_list` loop of
`apply_retention_lock_to_tapes`: exceptions abort the batch (`none`). -/
def lockLoop (env : LockEnv) (days_config monthly_years_config : Option Int) :
    List TapeInfo → List String → Option (List String)
  | [], acc => some acc
  | t :: rest, acc =>
    match set_retention_lock env days_config monthly_years_config t with
    | none => none
    | some b =>
      lockLoop env days_config monthly_years_config rest
        (if b then acc ++ [t.barcode] else acc)

/-- `OpenSystem.apply_retention_lock_to_tapes` (the tape loop, given the
governance gate has passed). -/
def apply_retention_lock_to_tapes (env : LockEnv)
    (days_config monthly_years_config : Option Int)
    (tapes : List TapeInfo) : Option (List String) :=
  lockLoop env days_config monthly_years_config tapes []

end Immutable

/-! ### Concrete scenario data used by individual claims -/

/-- A reference "now" (2025-06-01 12:00:00) used in concrete evaluations. -/
def nowJune : PyDateTime := ⟨2025, 6, 1, 12, 0, 0⟩

/-- Environment in which every remote command and subprocess succeeds. -/
def okEnv : Reset.Env :=
  { deleteProc := fun _ => .completed "" "" 0,
    exportCmd := fun _ => true,
    removeCmd := fun _ => true,
    createCmd := fun _ => true,
    importCmd := fun _ => true,
    labelProc := fun _ => .completed "" "" 0 }

/-- Pool report whose only data row carries the hard-coded test barcode,
with a state that is not retention-locked and no retention timestamp. -/
def c1Data : String :=
  "h1\nh2\nh3\nTEST01L5  POOL1  Pool_TEST slot 667  RW  5 GiB  0.0 %  1.0x  n/a"

/-- The same row with an ordinary barcode. -/
def c1DataOther : String :=
  "h1\nh2\nh3\nA00001L5  POOL1  Pool_TEST slot 667  RW  5 GiB  0.0 %  1.0x  n/a"

/-- The record parsed from the `TEST01L5` row of `c1Data`. -/
def c1Tape : Reset.TapeInfo :=
  { barcode := "TEST01L5", pool_name := "POOL1", location := "Pool_TEST slot 667",
    state := "RW", size := "5 GiB", retention_time := "n/a" }

/-- A tape whose size string has no space before the unit: `create_tape`'s
tuple unpacking raises `ValueError` on it. -/
def t3bad : Reset.TapeInfo :=
  { barcode := "A55001LA", pool_name := "FEB_3", location := "Pool_TEST slot 667",
    state := "RO/RL*", size := "5GiB", retention_time := "2025/02/16 19:45:48" }

/-- A well-formed tape that the pipeline can fully process. -/
def t3good : Reset.TapeInfo :=
  { barcode := "A55002LA", pool_name := "FEB_3", location := "Pool_TEST slot 668",
    state := "RO/RL*", size := "5 GiB", retention_time := "2025/02/16 19:45:48" }

/-- A tape located in the vault. -/
def t5vault : Reset.TapeInfo :=
  { barcode := "A55003LA", pool_name := "FEB_3", location := "vault",
    state := "RO/RL*", size := "5 GiB", retention_time := "2025/02/16 19:45:48" }

/-- A tape whose location does not end in a slot number. -/
def t5slotless : Reset.TapeInfo :=
  { barcode := "A55004LA", pool_name := "FEB_3", location := "Pool_TEST slot",
    state := "RO/RL*", size := "5 GiB", retention_time := "2025/02/16 19:45:48" }

/-- A report row for a retention-locked, expired tape. -/
def c6GoodLine : String :=
  "A55157LA  FEB_3  Pool_TEST slot 667  RO/RL*  5 GiB  1.0 %  1.0x  2025/02/16 19:45:48"

/-- The record parsed from `c6GoodLine`. -/
def c6Tape : Reset.TapeInfo :=
  { barcode := "A55157LA", pool_name := "FEB_3", location := "Pool_TEST slot 667",
    state := "RO/RL*", size := "5 GiB", retention_time := "2025/02/16 19:45:48" }

/-- A placement record matching the barcode but below the threshold. -/
def rec8small : Immutable.ReportRecord :=
  { file_name := "/data/col1/FEB_3/A55157LA_0.tape", size := "0.5 GiB",
    placement_time := "Sun Jun  1 03:15:00 2025" }

/-- A second matching placement record, above the threshold. -/
def rec8big : Immutable.ReportRecord :=
  { file_name := "/data/col1/FEB_3/A55157LA_1.tape", size := "4 GiB",
    placement_time := "Sun Jun  1 03:15:00 2025" }

/-- A tape with zero reported usage. -/
def t8zero : Immutable.TapeInfo :=
  { barcode := "A55157LA", pool_name := "FEB_3", location := "Pool_TEST slot 667",
    state := "RW", size := "5 GiB", used := "0.0 %",
    modification_time := "2025/06/01 03:15:00" }

/-- A tape modified on the same calendar day as `nowJune`. -/
def t2today : Immutable.TapeInfo :=
  { barcode := "A55158LA", pool_name := "FEB_3", location := "Pool_TEST slot 667",
    state := "RW", size := "5 GiB", used := "12.0 %",
    modification_time := "2025/06/01 03:15:00" }

/-- Bucket-wise inclusion between two batch accumulators: every already
recorded tape stays recorded. -/
def Reset.bucketMono (r0 r : Reset.BatchResult) : Prop :=
  (∀ b, b ∈ r0.created_tapes → b ∈ r.created_tapes) ∧
  (∀ x, x ∈ r0.failed_tape_while_export → x ∈ r.failed_tape_while_export) ∧
  (∀ x, x ∈ r0.failed_tape_while_remove → x ∈ r.failed_tape_while_remove) ∧
  (∀ x, x ∈ r0.failed_tape_while_create → x ∈ r.failed_tape_while_create) ∧
  (∀ x, x ∈ r0.failed_tape_while_import → x ∈ r.failed_tape_while_import) ∧
  (∀ x, x ∈ r0.failed_tape_while_delete_on_networker →
    x ∈ r.failed_tape_while_delete_on_networker)

/-- An environment whose labeling subprocess exits non-zero (the labeling
command reports failure). -/
def labelFailEnv : Reset.Env :=
  { okEnv with labelProc := fun _ => .completed "" "label error" 1 }

/-- Pool report returned by the post-lock re-query, showing the locked
state. -/
def lockShowData : String :=
  "h1\nh2\nh3\nA55158LA  FEB_3  Pool_TEST slot 667  RO/RL*  5 GiB  12.0 %  1.0x  2025/06/01 03:15:00"

/-- A lock-apply environment whose re-query always shows the locked tape. -/
def lockEnvOk : Immutable.LockEnv :=
  { showCmd := fun _ => some lockShowData }

/-! ### Claims -/

/-- Claim C1 (code bug): in the reclaim workflow a parsed record should
enter the reclaim tape list iff its state contains "RL" and its retention
timestamp is not "n/a" and lies strictly in the past.  The code however
appends any record whose barcode is the hard-coded test value `TEST01L5`
before evaluating that predicate: the record below is not locked and has
no retention timestamp, fails the composed predicate, yet is selected,
while the identical record under an ordinary barcode is not. -/
theorem claim1_reset_selection_test_hook :
    Reset.get_tapes_by_pool nowJune (some c1Data) = [c1Tape] ∧
    ¬ (Reset.check_state c1Tape = true ∧
       Reset.check_retention_date nowJune c1Tape = some true) ∧
    Reset.get_tapes_by_pool nowJune (some c1DataOther) = [] := by
  refine ⟨by decide, by decide, by decide⟩

/-- Claim C3 (counterexample): a failure while processing one tape is not
always isolated.  With every remote command succeeding, the well-formed
tape alone is fully reclaimed; but placed after a tape whose size string
is malformed (`"5GiB"`), the unexpected exception raised inside
`create_tape` propagates out of the batch loop: the batch aborts and the
well-formed tape is never processed. -/
theorem claim3_counterexample :
    Reset.remove_retention_locked_tapes okEnv [t3good] =
      some ⟨["A55002LA"], [], [], [], [], []⟩ ∧
    Reset.process_rl_tape okEnv t3bad = none ∧
    Reset.remove_retention_locked_tapes okEnv [t3bad, t3good] = none := by
  refine ⟨by decide, by decide, by decide⟩

/-- Claim C5 (counterexample): a vault-located or slot-less tape is not an
Export no-op success.  `export_tape_from_library` falls off the end
(Python `None`), the pipeline's truthiness test reads that as failure, and
the tape lands in the Export failure bucket — even though every remote
command in the environment succeeds. -/
theorem claim5_counterexample :
    Reset.export_tape_from_library okEnv t5vault = none ∧
    Reset.remove_retention_locked_tapes okEnv [t5vault] =
      some ⟨[], [t5vault], [], [], [], []⟩ ∧
    Reset.export_tape_from_library okEnv t5slotless = none ∧
    Reset.remove_retention_locked_tapes okEnv [t5slotless] =
      some ⟨[], [t5slotless], [], [], [], []⟩ := by
  refine ⟨by decide, by decide, by decide, by decide⟩

/-- Claim C6 (counterexample): the reclaim-side parser does not drop a
malformed line and continue.  The selectable row parses on its own, but
with a malformed (wrong-column-count) line inserted before it, the
`IndexError` raised while building the record ends the parse: the
well-formed following row is lost. -/
theorem claim6_counterexample :
    Reset.get_tapes_by_pool nowJune (some ("h1\nh2\nh3\n" ++ c6GoodLine)) = [c6Tape] ∧
    Reset.get_tapes_by_pool nowJune (some ("h1\nh2\nh3\nBADLINE\n" ++ c6GoodLine)) = [] := by
  refine ⟨by decide, by decide⟩

/-- Claim C8 (counterexample): usage eligibility is not the existential
"some matching placement record exceeds the minimum".  The report below
contains a matching record of 4 GiB, well above the 1 GiB minimum, but the
search stops at the first match (0.5 GiB), so the zero-usage tape is
judged not eligible. -/
theorem claim8_counterexample :
    Immutable.check_used [rec8small, rec8big] "1 GiB" t8zero = some false ∧
    rec8big ∈ [rec8small, rec8big] ∧
    strContains rec8big.file_name t8zero.barcode = true ∧
    size_to_bytes rec8big.size = some ⟨4 * 2 ^ 30, 0⟩ ∧
    size_to_bytes "1 GiB" = some ⟨2 ^ 30, 0⟩ ∧
    PyNum.gtNum ⟨4 * 2 ^ 30, 0⟩ ⟨2 ^ 30, 0⟩ = true ∧
    pySplitWs t8zero.used = ["0.0", "%"] ∧
    parseDecimal? "0.0" = some ⟨0, 1⟩ := by
  refine ⟨by decide, by decide, by decide, by decide, by decide, by decide, by decide,
    by decide⟩

/-- Claim C7: when both the daily bound (in days) and the monthly bound
(in years) are positive integers, the duration string actually produced is
the monthly `"<N>year"` one — the monthly assignment runs after and
overwrites the daily `"<N>day"` choice — both for the pool maximum period
and for the per-tape lock duration of `set_retention_lock`; concretely,
daily 30 days with monthly 2 years yields `"2year"`. -/
theorem claim7_monthly_overwrites_daily :
    (∀ d m : Int, 0 < d → 0 < m →
      Immutable.set_max_retention_lock_period_pool (some d) (some m) =
        some (toString m ++ "year") ∧
      Immutable.retention_lock_period_for_tape (some d) (some m) =
        some (toString m ++ "year")) ∧
    Immutable.set_max_retention_lock_period_pool (some 30) (some 2) = some "2year" := by
  refine ⟨fun d m hd hm => ?_, by decide⟩
  constructor
  · simp [Immutable.set_max_retention_lock_period_pool, hd, hm]
  · simp [Immutable.retention_lock_period_for_tape, hd, hm]

/-- Witness for C7 at daily = 30 days, monthly = 2 years. -/
theorem claim7_monthly_overwrites_daily_witness :
    Immutable.set_max_retention_lock_period_pool (some 30) (some 2) = some "2year" ∧
    Immutable.retention_lock_period_for_tape (some 30) (some 2) = some "2year" :=
  (claim7_monthly_overwrites_daily.1 30 2 (by decide) (by decide))

/-- Claim C9: `size_to_bytes` follows the fixed binary-unit table on the
upper-cased unit token — B ×1, KB ×1024, MB/MiB ×2^20, GB/GiB ×2^30,
TB/TiB ×2^40 — so `"2 TiB"` is exactly `2 × 2^40` bytes, and a unit token
outside the table yields the raised error (`none`), never zero. -/
theorem claim9_size_to_bytes_table :
    size_to_bytes "2 TiB" = some ⟨2 * 2 ^ 40, 0⟩ ∧
    ∀ s v u : String, ∀ q : PyNum,
      pySplitWs (pyStrip s) = [v, u] → parseDecimal? v = some q →
      (pyUpper u = "B" → size_to_bytes s = some (q.scaleBy 1)) ∧
      (pyUpper u = "KB" → size_to_bytes s = some (q.scaleBy 1024)) ∧
      (pyUpper u = "MB" ∨ pyUpper u = "MIB" → size_to_bytes s = some (q.scaleBy (2 ^ 20))) ∧
      (pyUpper u = "GB" ∨ pyUpper u = "GIB" → size_to_bytes s = some (q.scaleBy (2 ^ 30))) ∧
      (pyUpper u = "TB" ∨ pyUpper u = "TIB" → size_to_bytes s = some (q.scaleBy (2 ^ 40))) ∧
      (pyUpper u ∉ (["B", "KB", "MB", "MIB", "GB", "GIB", "TB", "TIB"] : List String) →
        size_to_bytes s = none) := by
  refine ⟨by decide, fun s v u q hsplit hq => ?_⟩
  have hbase : size_to_bytes s = (unitMultiplier u).map q.scaleBy := by
    unfold size_to_bytes
    rw [hsplit]
    simp only [hq]
  refine ⟨fun h => ?_, fun h => ?_, fun h => ?_, fun h => ?_, fun h => ?_, fun h => ?_⟩
  · rw [hbase]; simp [unitMultiplier, h]
  · rw [hbase]; simp [unitMultiplier, h]
  · rw [hbase]
    rcases h with h | h <;> simp [unitMultiplier, h]
  · rw [hbase]
    rcases h with h | h <;> simp [unitMultiplier, h]
  · rw [hbase]
    rcases h with h | h <;> simp [unitMultiplier, h]
  · rw [hbase]
    simp only [List.mem_cons, List.not_mem_nil, or_false, not_or] at h
    obtain ⟨h1, h2, h3, h4, h5, h6, h7, h8⟩ := h
    simp [unitMultiplier, h1, h2, h3, h4, h5, h6, h7, h8]

/-- Witness for C9 on concrete size strings, including a lower-case unit
and an out-of-table unit. -/
theorem claim9_size_to_bytes_table_witness :
    size_to_bytes "1.5 kb" = some (PyNum.scaleBy ⟨15, 1⟩ 1024) ∧
    size_to_bytes "3 GiB" = some (PyNum.scaleBy ⟨3, 0⟩ (2 ^ 30)) ∧
    size_to_bytes "2 KiB" = none :=
  ⟨((claim9_size_to_bytes_table.2 "1.5 kb" "1.5" "kb" ⟨15, 1⟩ (by decide)
      (by decide)).2.1 (by decide)),
   ((claim9_size_to_bytes_table.2 "3 GiB" "3" "GiB" ⟨3, 0⟩ (by decide)
      (by decide)).2.2.2.1 (Or.inr (by decide))),
   ((claim9_size_to_bytes_table.2 "2 KiB" "2" "KiB" ⟨2, 0⟩ (by decide)
      (by decide)).2.2.2.2.2 (by decide))⟩

/-- Claim C2: the lock-apply selection decision for a parsed record whose
usage and modification-time fields are well formed is exactly the
four-way conjunction: location names a slot, usage-eligible, lock marker
absent from the state, and the modification date truncated to midnight
equals today's midnight under mechanism 1 or yesterday's midnight under
mechanism 2 — any other mechanism value never matches. -/
theorem claim2_lock_selection (report : List Immutable.ReportRecord)
    (minimum_tape_usage : String) (mechanism : Int) (now : PyDateTime)
    (t : Immutable.TapeInfo) (u : Bool) (md : PyDateTime)
    (hu : Immutable.check_used report minimum_tape_usage t = some u)
    (hmd : parseDateTime t.modification_time = some md) :
    Immutable.tapeDecision report minimum_tape_usage mechanism now t = some true ↔
      (strContains t.location "slot" = true ∧ u = true ∧
       strContains (pyStrip t.state) "RL" = false ∧
       ((mechanism = 1 ∧ timestamp (midnight now) = timestamp (midnight md)) ∨
        (mechanism = 2 ∧
          timestamp (midnight (fromTimestamp (timestamp now - 86400))) =
            timestamp (midnight md)))) := by
  unfold Immutable.tapeDecision
  rw [hu]
  unfold Immutable.check_modification_date
  rw [hmd]
  simp only [Immutable.check_state, Option.some.injEq, Bool.and_eq_true,
    Bool.not_eq_true']
  split_ifs with h1 h2 <;> simp_all <;> tauto

/-- Witness for C2: a slot-loaded, used, unlocked tape modified today is
selected under mechanism 1. -/
theorem claim2_lock_selection_witness :
    Immutable.tapeDecision [] "1 GiB" 1 nowJune t2today = some true :=
  (claim2_lock_selection [] "1 GiB" 1 nowJune t2today true ⟨2025, 6, 1, 3, 15, 0⟩
      (by decide) (by decide)).mpr
    ⟨by decide, rfl, by decide, Or.inl ⟨rfl, by decide⟩⟩

/-- Claim C10: `run_nsrmm_command` returns `True` whenever the delete
subprocess runs to completion — whatever it wrote to stderr and whatever
its exit status — and `False` exactly on `subprocess.CalledProcessError`;
consequently a tape reaches the CatalogDelete failure bucket of the
reclaim pipeline if and only if that exception was raised. -/
theorem claim10_nsrmm_always_true :
    (∀ out err : String, ∀ code : Int,
      run_nsrmm_command (.completed out err code) = some true) ∧
    run_nsrmm_command .calledProcessError = some false ∧
    (∀ (env : Reset.Env) (t : Reset.TapeInfo),
      Reset.process_rl_tape env t = some .failDelete ↔
        env.deleteProc t.barcode = .calledProcessError) := by
  refine ⟨fun out err code => rfl, rfl, fun env t => ?_⟩
  constructor
  · intro h
    cases hd : env.deleteProc t.barcode with
    | completed out err code =>
      exfalso
      unfold Reset.process_rl_tape at h
      rw [hd] at h
      simp only [run_nsrmm_command, if_true, reduceCtorEq] at h
      repeat
        first
        | exact Option.noConfusion h
        | simp_all
        | split at h
    | calledProcessError => rfl
    | otherError =>
      exfalso
      unfold Reset.process_rl_tape at h
      rw [hd] at h
      simp [run_nsrmm_command] at h
  · intro h
    unfold Reset.process_rl_tape
    rw [h]
    rfl

theorem Reset.bucketMono_record (r : Reset.BatchResult) (t : Reset.TapeInfo)
    (o : Reset.TapeOutcome) : Reset.bucketMono r (Reset.recordOutcome r t o) := by
  cases o <;>
    simp [Reset.bucketMono, Reset.recordOutcome, List.mem_append] <;>
    tauto

theorem Reset.batchLoop_bucketMono (env : Reset.Env) (tapes : List Reset.TapeInfo) :
    ∀ r0 r : Reset.BatchResult, Reset.batchLoop env tapes r0 = some r →
      Reset.bucketMono r0 r := by
  induction tapes with
  | nil =>
    intro r0 r h
    simp [Reset.batchLoop] at h
    subst h
    exact ⟨fun _ hb => hb, fun _ hb => hb, fun _ hb => hb, fun _ hb => hb,
      fun _ hb => hb, fun _ hb => hb⟩
  | cons t rest ih =>
    intro r0 r h
    unfold Reset.batchLoop at h
    cases hp : Reset.process_rl_tape env t with
    | none => rw [hp] at h; exact absurd h (by simp)
    | some o =>
      rw [hp] at h
      have h1 := Reset.bucketMono_record r0 t o
      have h2 := ih (Reset.recordOutcome r0 t o) r h
      exact ⟨fun b hb => h2.1 b (h1.1 b hb),
        fun x hx => h2.2.1 x (h1.2.1 x hx),
        fun x hx => h2.2.2.1 x (h1.2.2.1 x hx),
        fun x hx => h2.2.2.2.1 x (h1.2.2.2.1 x hx),
        fun x hx => h2.2.2.2.2.1 x (h1.2.2.2.2.1 x hx),
        fun x hx => h2.2.2.2.2.2 x (h1.2.2.2.2.2 x hx)⟩

theorem Reset.batchLoop_covers (env : Reset.Env) (tapes : List Reset.TapeInfo) :
    ∀ r0 r : Reset.BatchResult, Reset.batchLoop env tapes r0 = some r →
      ∀ t ∈ tapes, t.barcode ∈ r.created_tapes ∨
        t ∈ r.failed_tape_while_delete_on_networker ∨
        t ∈ r.failed_tape_while_export ∨ t ∈ r.failed_tape_while_remove ∨
        t ∈ r.failed_tape_while_create ∨ t ∈ r.failed_tape_while_import := by
  induction tapes with
  | nil =>
    intro r0 r h t ht
    exact absurd ht (List.not_mem_nil t)
  | cons t0 rest ih =>
    intro r0 r h t ht
    unfold Reset.batchLoop at h
    cases hp : Reset.process_rl_tape env t0 with
    | none => rw [hp] at h; exact absurd h (by simp)
    | some o =>
      rw [hp] at h
      rcases List.mem_cons.mp ht with rfl | hmem
      · have hmono := Reset.batchLoop_bucketMono env rest _ r h
        cases o with
        | succeeded =>
          exact Or.inl (hmono.1 _ (by simp [Reset.recordOutcome]))
        | failDelete =>
          exact Or.inr (Or.inl (hmono.2.2.2.2.2 _ (by simp [Reset.recordOutcome])))
        | failExport =>
          exact Or.inr (Or.inr (Or.inl (hmono.2.1 _ (by simp [Reset.recordOutcome]))))
        | failRemove =>
          exact Or.inr (Or.inr (Or.inr (Or.inl
            (hmono.2.2.1 _ (by simp [Reset.recordOutcome])))))
        | failCreate =>
          exact Or.inr (Or.inr (Or.inr (Or.inr (Or.inl
            (hmono.2.2.2.1 _ (by simp [Reset.recordOutcome]))))))
        | failImport =>
          exact Or.inr (Or.inr (Or.inr (Or.inr (Or.inr
            (hmono.2.2.2.2.1 _ (by simp [Reset.recordOutcome]))))))
      · exact ih _ r h t hmem

/-- Claim C4: a tape whose CatalogDelete, Export, Remove, Create and
Import stages all succeed is recorded as succeeded once the Label stage
has been attempted, whatever the labeling command itself reports; and
every tape of a completed batch lands in the success list or one of the
five stage failure buckets — there is no Label failure bucket. -/
theorem claim4_success_on_label_attempt :
    (∀ (env : Reset.Env) (t : Reset.TapeInfo) (b : Bool),
      run_nsrmm_command (env.deleteProc t.barcode) = some true →
      Reset.export_tape_from_library env t = some true →
      Reset.execute_tape_remove_commmand env t = true →
      Reset.create_tape env t = some true →
      Reset.import_tape_from_library env t = true →
      run_nsrjb_command (env.labelProc t.barcode) = some b →
      Reset.process_rl_tape env t = some .succeeded) ∧
    (∀ (env : Reset.Env) (tapes : List Reset.TapeInfo) (r : Reset.BatchResult),
      Reset.remove_retention_locked_tapes env tapes = some r →
      ∀ t ∈ tapes, t.barcode ∈ r.created_tapes ∨
        t ∈ r.failed_tape_while_delete_on_networker ∨
        t ∈ r.failed_tape_while_export ∨ t ∈ r.failed_tape_while_remove ∨
        t ∈ r.failed_tape_while_create ∨ t ∈ r.failed_tape_while_import) := by
  constructor
  · intro env t b hdel hexp hrm hcr himp hlab
    unfold Reset.process_rl_tape
    rw [hdel, hexp, hcr, hlab]
    simp [hrm, himp]
  · intro env tapes r h
    exact Reset.batchLoop_covers env tapes Reset.emptyBatch r h

/-- Witness for C4: with the labeling command failing, the tape is still
recorded in the success list, and in the completed singleton batch it
appears in that list. -/
theorem claim4_success_on_label_attempt_witness :
    Reset.process_rl_tape labelFailEnv t3good = some .succeeded ∧
    (t3good.barcode ∈
        (Reset.BatchResult.created_tapes ⟨["A55002LA"], [], [], [], [], []⟩) ∨
      t3good ∈ (Reset.BatchResult.failed_tape_while_delete_on_networker
        ⟨["A55002LA"], [], [], [], [], []⟩) ∨
      t3good ∈ (Reset.BatchResult.failed_tape_while_export
        ⟨["A55002LA"], [], [], [], [], []⟩) ∨
      t3good ∈ (Reset.BatchResult.failed_tape_while_remove
        ⟨["A55002LA"], [], [], [], [], []⟩) ∨
      t3good ∈ (Reset.BatchResult.failed_tape_while_create
        ⟨["A55002LA"], [], [], [], [], []⟩) ∨
      t3good ∈ (Reset.BatchResult.failed_tape_while_import
        ⟨["A55002LA"], [], [], [], [], []⟩)) :=
  ⟨claim4_success_on_label_attempt.1 labelFailEnv t3good false (by decide) (by decide)
      (by decide) (by decide) (by decide) (by decide),
   claim4_success_on_label_attempt.2 labelFailEnv [t3good]
      ⟨["A55002LA"], [], [], [], [], []⟩ (by decide) t3good (by decide)⟩

/-- Claim C3 (amended): a per-tape stage failure reported by a command is
isolated — the tape's outcome is recorded and the loop continues with the
rest of the batch, in both the reclaim pipeline and the lock-apply loop —
but an uncaught exception while processing a tape (for example the
malformed size string of the counterexample) aborts the remaining batch. -/
theorem claim3_amended_isolation :
    (∀ (env : Reset.Env) (t : Reset.TapeInfo) (o : Reset.TapeOutcome)
        (rest : List Reset.TapeInfo) (r : Reset.BatchResult),
      Reset.process_rl_tape env t = some o →
      Reset.batchLoop env (t :: rest) r =
        Reset.batchLoop env rest (Reset.recordOutcome r t o)) ∧
    (∀ (env : Immutable.LockEnv) (dc mc : Option Int) (t : Immutable.TapeInfo)
        (b : Bool) (rest : List Immutable.TapeInfo) (acc : List String),
      Immutable.set_retention_lock env dc mc t = some b →
      Immutable.lockLoop env dc mc (t :: rest) acc =
        Immutable.lockLoop env dc mc rest (if b then acc ++ [t.barcode] else acc)) ∧
    (∀ (env : Reset.Env) (t : Reset.TapeInfo) (rest : List Reset.TapeInfo)
        (r : Reset.BatchResult),
      Reset.process_rl_tape env t = none →
      Reset.batchLoop env (t :: rest) r = none) := by
  refine ⟨fun env t o rest r h => ?_, fun env dc mc t b rest acc h => ?_,
    fun env t rest r h => ?_⟩
  · conv_lhs => rw [Reset.batchLoop]
    rw [h]
  · conv_lhs => rw [Immutable.lockLoop]
    rw [h]
  · conv_lhs => rw [Reset.batchLoop]
    rw [h]

/-- Witness for the amended C3 at concrete tapes and environments. -/
theorem claim3_amended_isolation_witness :
    Reset.batchLoop okEnv [t3good, t5vault] Reset.emptyBatch =
      Reset.batchLoop okEnv [t5vault]
        (Reset.recordOutcome Reset.emptyBatch t3good .succeeded) ∧
    Immutable.lockLoop lockEnvOk (some 30) (some 2) [t2today] [] =
      Immutable.lockLoop lockEnvOk (some 30) (some 2) []
        (if true then ([] : List String) ++ [t2today.barcode] else []) ∧
    Reset.batchLoop okEnv [t3bad, t3good] Reset.emptyBatch = none :=
  ⟨claim3_amended_isolation.1 okEnv t3good .succeeded [t5vault] Reset.emptyBatch
      (by decide),
   claim3_amended_isolation.2.1 lockEnvOk (some 30) (some 2) t2today true [] []
      (by decide),
   claim3_amended_isolation.2.2 okEnv t3bad [t3good] Reset.emptyBatch (by decide)⟩

/-- Claim C5 (amended): a tape whose location has no trailing slot number
or whose library name is "vault" makes `export_tape_from_library` return
no result (Python `None`); the pipeline reads that as failure, so such a
tape lands in the Export failure bucket.  A non-vault tape with a slot
number succeeds at Export exactly when the export command does.  The
helper for importing returns failure unconditionally for a vault location —
although in the pipeline a vault tape never reaches Import, having already
failed at Export. -/
theorem claim5_amended_vault_slotless :
    (∀ (env : Reset.Env) (t : Reset.TapeInfo),
      trailingDigits t.location = "" ∨ (pySplitChar t.location ' ').headD "" = "vault" →
      Reset.export_tape_from_library env t = none) ∧
    (∀ (env : Reset.Env) (t : Reset.TapeInfo),
      trailingDigits t.location ≠ "" → (pySplitChar t.location ' ').headD "" ≠ "vault" →
      Reset.export_tape_from_library env t = some (env.exportCmd t)) ∧
    (∀ (env : Reset.Env) (t : Reset.TapeInfo),
      run_nsrmm_command (env.deleteProc t.barcode) = some true →
      Reset.export_tape_from_library env t = none →
      Reset.process_rl_tape env t = some .failExport) ∧
    (∀ (env : Reset.Env) (t : Reset.TapeInfo),
      (pySplitChar t.location ' ').headD "" = "vault" →
      Reset.import_tape_from_library env t = false) := by
  refine ⟨fun env t h => ?_, fun env t h1 h2 => ?_, fun env t hdel hexp => ?_,
    fun env t h => ?_⟩
  · have hc : ¬(trailingDigits t.location ≠ "" ∧
        (pySplitChar t.location ' ').headD "" ≠ "vault") := by
      rcases h with h | h
      · exact fun hc => hc.1 h
      · exact fun hc => hc.2 h
    unfold Reset.export_tape_from_library
    rw [if_neg hc]
  · unfold Reset.export_tape_from_library
    rw [if_pos ⟨h1, h2⟩]
  · unfold Reset.process_rl_tape
    rw [hdel, hexp]
    rfl
  · unfold Reset.import_tape_from_library
    rw [if_neg (fun hc => hc h)]

/-- Witness for the amended C5 on the vault tape, the slot-less tape and a
normal slot-loaded tape. -/
theorem claim5_amended_vault_slotless_witness :
    Reset.export_tape_from_library okEnv t5vault = none ∧
    Reset.export_tape_from_library okEnv t3good = some (okEnv.exportCmd t3good) ∧
    Reset.process_rl_tape okEnv t5slotless = some .failExport ∧
    Reset.import_tape_from_library okEnv t5vault = false :=
  ⟨claim5_amended_vault_slotless.1 okEnv t5vault (Or.inr (by decide)),
   claim5_amended_vault_slotless.2.1 okEnv t3good (by decide) (by decide),
   claim5_amended_vault_slotless.2.2.1 okEnv t5slotless (by decide)
      (claim5_amended_vault_slotless.1 okEnv t5slotless (Or.inl (by decide))),
   claim5_amended_vault_slotless.2.2.2 okEnv t5vault (by decide)⟩

/-- Claim C6 (amended): the lock-apply parser (`get_tapes`) drops blank,
heading and wrong-column-count lines and continues with the following
lines; the reclaim parser (`get_tapes_by_pool`) only skips its first
three lines — past them, a line with fewer than eight fields raises and
ends the parse with the records accumulated so far (the counterexample);
in both parsers a failed or empty retrieval yields the empty record list,
not an exception. -/
theorem claim6_amended_parsing :
    (∀ (report : List Immutable.ReportRecord) (mu : String) (mech : Int)
        (now : PyDateTime) (line : String) (rest : List String)
        (acc : List Immutable.TapeInfo),
      (pyStrip ((pySplitTwoSpace line).headD "") = "" ∨
        (pySplitTwoSpace line).any (Immutable.headingList.contains ·) = true ∨
        (pySplitTwoSpace line).length < 2 ∨
        (((pySplitTwoSpace line).map pyStrip).filter (· ≠ "")).length ≠ 8) →
      Immutable.getTapesLoop report mu mech now (line :: rest) acc =
        Immutable.getTapesLoop report mu mech now rest acc) ∧
    (∀ (now : PyDateTime) (i : Nat) (line : String) (rest : List String)
        (acc : List Reset.TapeInfo),
      i + 1 > 3 → countDashFirstTwo ((pySplitTwoSpace line).headD "") ≤ 1 →
      (Reset.lineFields line).length < 8 →
      Reset.getTapesLoop now i (line :: rest) acc = acc) ∧
    (∀ (report : List Immutable.ReportRecord) (mu : String) (mech : Int)
        (now : PyDateTime),
      Immutable.get_tapes report mu mech now none = [] ∧
      Immutable.get_tapes report mu mech now (some "") = []) ∧
    (∀ now : PyDateTime,
      Reset.get_tapes_by_pool now none = [] ∧
      Reset.get_tapes_by_pool now (some "") = []) := by
  refine ⟨fun report mu mech now line rest acc h => ?_,
    fun now i line rest acc h1 h2 h3 => ?_,
    fun report mu mech now => ⟨rfl, by simp [Immutable.get_tapes]⟩,
    fun now => ⟨rfl, by simp [Reset.get_tapes_by_pool]⟩⟩
  · simp only [Immutable.getTapesLoop]
    by_cases hb : pyStrip ((pySplitTwoSpace line).headD "") = ""
    · rw [if_pos hb]
    · rw [if_neg hb]
      by_cases hh : (pySplitTwoSpace line).any (Immutable.headingList.contains ·) = true
      · rw [if_pos hh]
      · rw [if_neg hh]
        by_cases hl : (pySplitTwoSpace line).length < 2
        · rw [if_pos hl]
        · rw [if_neg hl]
          have h8 : (((pySplitTwoSpace line).map pyStrip).filter (· ≠ "")).length ≠ 8 := by
            tauto
          rw [if_neg h8]
  · simp only [Reset.getTapesLoop]
    have hno : ¬(i + 1 > 3 ∧ countDashFirstTwo ((pySplitTwoSpace line).headD "") > 1) := by
      omega
    have hle : ¬(i + 1 ≤ 3) := by omega
    rw [if_neg hno, if_neg hle, if_pos h3]

/-- Witness for the amended C6: a heading line and a short line are
dropped by the lock-apply parser; a short post-header line ends the
reclaim parse; empty inputs parse to empty lists. -/
theorem claim6_amended_parsing_witness :
    Immutable.getTapesLoop [] "1 GiB" 1 nowJune ["Barcode  Pool  Location"] [] =
      Immutable.getTapesLoop [] "1 GiB" 1 nowJune [] [] ∧
    Reset.getTapesLoop nowJune 3 ["BADLINE"] [c6Tape] = [c6Tape] ∧
    Immutable.get_tapes [] "1 GiB" 1 nowJune none = [] ∧
    Reset.get_tapes_by_pool nowJune (some "") = [] :=
  ⟨claim6_amended_parsing.1 [] "1 GiB" 1 nowJune "Barcode  Pool  Location" [] []
      (Or.inr (Or.inl (by decide))),
   claim6_amended_parsing.2.1 nowJune 3 "BADLINE" [] [c6Tape] (by decide) (by decide)
      (by decide),
   (claim6_amended_parsing.2.2.1 [] "1 GiB" 1 nowJune).1,
   (claim6_amended_parsing.2.2.2 nowJune).2⟩

theorem Immutable.check_usage_in_report_eq_true_iff (report : List Immutable.ReportRecord)
    (mu : String) (t : Immutable.TapeInfo) :
    Immutable.check_usage_in_report report mu t = some true ↔
      ∃ r, Immutable.firstMatch report t.barcode = some r ∧
        ∃ ref fs, size_to_bytes mu = some ref ∧ size_to_bytes r.size = some fs ∧
          fs.gtNum ref = true ∧ (parseDateTime t.modification_time).isSome = true ∧
          (parseCtime r.placement_time).isSome = true := by
  unfold Immutable.check_usage_in_report
  cases hfm : Immutable.firstMatch report t.barcode with
  | none => simp
  | some r =>
    simp only [Option.some.injEq]
    cases href : size_to_bytes mu with
    | none => simp [href]
    | some ref =>
      cases hfs : size_to_bytes r.size with
      | none => simp [hfs, href]
      | some fs =>
        dsimp only
        by_cases hgt : fs.gtNum ref = true
        · rw [if_pos hgt]
          cases hmd : parseDateTime t.modification_time <;>
            cases hpc : parseCtime r.placement_time <;>
            simp [href, hfs, hgt, hmd, hpc]
        · rw [if_neg hgt]
          simp [href, hfs, hgt]

/-- Claim C8 (amended): for a tape whose usage field parses, usage
eligibility holds iff the reported percentage is positive, or the *first*
placement record (in report order) whose file name contains the barcode
exists, both sizes convert, that record's size strictly exceeds the
configured minimum and its timestamps parse.  Later matching records are
never consulted (the counterexample shows the existential reading fails). -/
theorem claim8_amended_usage (report : List Immutable.ReportRecord)
    (mu : String) (t : Immutable.TapeInfo) (tok : String) (toks : List String)
    (u : PyNum) (hsplit : pySplitWs t.used = tok :: toks)
    (hu : parseDecimal? tok = some u) :
    Immutable.check_used report mu t = some true ↔
      (u.isPos = true ∨
        ∃ r, Immutable.firstMatch report t.barcode = some r ∧
          ∃ ref fs, size_to_bytes mu = some ref ∧ size_to_bytes r.size = some fs ∧
            fs.gtNum ref = true ∧ (parseDateTime t.modification_time).isSome = true ∧
            (parseCtime r.placement_time).isSome = true) := by
  unfold Immutable.check_used
  rw [hsplit]
  simp only [hu, Option.some.injEq, Bool.or_eq_true, beq_iff_eq]
  rw [← Immutable.check_usage_in_report_eq_true_iff report mu t]

/-- Witness for the amended C8: the zero-usage tape becomes eligible when
the first matching placement record is above the minimum. -/
theorem claim8_amended_usage_witness :
    Immutable.check_used [rec8big] "1 GiB" t8zero = some true :=
  (claim8_amended_usage [rec8big] "1 GiB" t8zero "0.0" ["%"] ⟨0, 1⟩ (by decide)
      (by decide)).mpr
    (Or.inr ⟨rec8big, by decide, ⟨2 ^ 30, 0⟩, ⟨4 * 2 ^ 30, 0⟩, by decide, by decide,
      by decide, by decide, by decide⟩)
end VTL
